import Mathlib

set_option maxRecDepth 16384

/-!
Verification of the BriefCard link-to-card pipeline and the InsightHub
subscription form, as implemented in this repository.

Shallow embedding conventions:
* Python strings are Lean `String`s; Python `len`/slicing act on codepoints,
  matching `String.length` and `List.take` on `String.data`.
* A Python dict whose keys may be missing becomes a structure of `Option`
  fields; subscript access (`d['k']`, raising `KeyError` when the key is
  missing) becomes an `Except` returning the missing key's name, while
  `d.get('k', default)` becomes `Option.getD`.
* The Supabase `bookmarks` table becomes a list of rows plus a fresh-id
  counter (`gen_random_uuid` yields a fresh identity per insert).
* External effects (the crawler's outcome, the current date) are passed in
  as parameters.
-/

namespace BriefCard

/-! ## Python string helpers -/

/-- Python `s[:n]`: the first `n` codepoints of `s`. -/
def pyTake (s : String) (n : Nat) : String := String.mk (s.data.take n)

/-- Python truthiness of an optional string: `None` and `''` are falsy. -/
def pyTruthy : Option String → Bool
  | none => false
  | some s => !(s == "")

/-- Python `a or b` for an optional string `a` and a fallback `b`:
yields `a`'s value when it is truthy, otherwise `b`. -/
def pyOr (a : Option String) (b : String) : String :=
  match a with
  | none => b
  | some s => if s = "" then b else s

/-- Python `\s` on the ASCII range (space, tab, newline, carriage return,
vertical tab, form feed). -/
def pyIsSpace (c : Char) : Bool :=
  c == ' ' || c == '\t' || c == '\n' || c == '\r' || c == '\x0b' || c == '\x0c'

/-! ## `LineService.is_url` (services/line_service.py)

`re.search(r'https?://[^\s]+', text)`: the pattern matches at a position
when the text there starts with `http://` or `https://` followed by at
least one non-whitespace character; `re.search` looks for a match at any
position and `bool(...)` of the match object is the result. -/

/-- Does `r'https?://[^\s]+'` match at the head of `cs`? -/
def matchesHttpAt (cs : List Char) : Bool :=
  match cs with
  | 'h' :: 't' :: 't' :: 'p' :: 's' :: ':' :: '/' :: '/' :: c :: _ => !(pyIsSpace c)
  | 'h' :: 't' :: 't' :: 'p' :: ':' :: '/' :: '/' :: c :: _ => !(pyIsSpace c)
  | _ => false

/-- `re.search`: try the pattern at every position, left to right. -/
def searchHttp : List Char → Bool
  | [] => false
  | c :: rest => matchesHttpAt (c :: rest) || searchHttp rest

/-- `LineService.is_url`: `bool(re.search(r'https?://[^\s]+', text))`. -/
def is_url (text : String) : Bool := searchHttp text.data

/-- Modelled from the spec (not from the source, which has no such
operation): the URL-extractor contract of spec section 4.1 — all matches
of the HTTP(S) URL pattern in order, duplicates collapsed to the first
occurrence, capped at 3 entries.  `re.findall` semantics: at the first
matching position the greedy `[^\s]+` consumes the whole non-whitespace
run, and scanning resumes after the match. -/
def spec_findUrlMatchesFuel : Nat → List Char → List (List Char)
  | 0, _ => []
  | _ + 1, [] => []
  | fuel + 1, c :: rest =>
    if matchesHttpAt (c :: rest) then
      ((c :: rest).takeWhile (fun ch => !(pyIsSpace ch)))
        :: spec_findUrlMatchesFuel fuel (rest.dropWhile (fun ch => !(pyIsSpace ch)))
    else
      spec_findUrlMatchesFuel fuel rest

/-- Modelled from the spec: all pattern matches, scanning left to right.
The fuel argument only bounds the recursion; `cs.length` steps always
suffice because each step consumes at least one character. -/
def spec_findUrlMatches (cs : List Char) : List (List Char) :=
  spec_findUrlMatchesFuel cs.length cs

/-- Keep the first occurrence of each element, dropping later duplicates. -/
def dedupKeepFirst (seen : List String) : List String → List String
  | [] => []
  | x :: xs =>
    if seen.contains x then dedupKeepFirst seen xs
    else x :: dedupKeepFirst (x :: seen) xs

/-- Modelled from the spec: ordered, deduplicated (first occurrence),
capped at 3 — the return value the spec ascribes to URL extraction. -/
def spec_extractUrls (text : String) : List String :=
  (dedupKeepFirst [] ((spec_findUrlMatches text.data).map String.mk)).take 3

/-! ## `LineService.create_bookmark_card` (services/line_service.py) -/

/-- The keys of `bookmark_data` that `create_bookmark_card` reads.  Every
field is optional because the input is a Python dict; `d['k']` on a
missing key raises `KeyError`. -/
structure BookmarkData where
  id : Option String
  url : Option String
  title : Option String
  description : Option String
  content_markdown : Option String
  image_url : Option String
  preview_image : Option String

/-- A button of the Flex card: its `style` and its `action` object
(`uri` actions open a link, `postback` actions send data back). -/
inductive FlexAction where
  | uri (uri : String) (label : String)
  | postback (data : String) (label : String)
deriving DecidableEq, Repr

/-- One button element: JSON `style` field plus the `action` object. -/
structure FlexButton where
  style : String
  action : FlexAction
deriving DecidableEq, Repr

/-- The claim-relevant projection of the Flex message dict returned by
`create_bookmark_card`: `altText`, the hero image `url`, the two body
text elements, the body button, and the footer buttons. -/
structure FlexCard where
  altText : String
  heroUrl : String
  titleText : String
  previewText : String
  bodyButtons : List FlexButton
  footerButtons : List FlexButton
deriving DecidableEq, Repr

/-- `d['k']`: the value when present, otherwise `KeyError` carrying the
key name. -/
def getKey (v : Option String) (k : String) : Except String String :=
  match v with
  | some s => Except.ok s
  | none => Except.error k

/-- Source line `main_content = bookmark_data.get('content_markdown',
bookmark_data.get('description', ''))`. -/
def main_content_of (d : BookmarkData) : String :=
  d.content_markdown.getD (d.description.getD "")

/-- Source line `content_preview = main_content[:100] + "..." if
len(main_content) > 100 else main_content`. -/
def content_preview_of (d : BookmarkData) : String :=
  if (main_content_of d).length > 100 then pyTake (main_content_of d) 100 ++ "..."
  else main_content_of d

/-- Source lines computing `image_url`: `bookmark_data.get('image_url') or
bookmark_data.get('preview_image') or 'https://your-domain.com/icon.png'`. -/
def image_url_of (d : BookmarkData) : String :=
  pyOr d.image_url (pyOr d.preview_image "https://your-domain.com/icon.png")

/-- `LineService.create_bookmark_card`.  The dict literal it returns reads
`bookmark_data['title']` (in `altText`, then again in the body),
`bookmark_data['id']` (edit-button URI in the body), and
`bookmark_data['url']` (footer button), in that order; the first missing
one raises `KeyError`. -/
def create_bookmark_card (d : BookmarkData) : Except String FlexCard :=
  match getKey d.title "title" with
  | Except.error e => Except.error e
  | Except.ok title =>
    match getKey d.id "id" with
    | Except.error e => Except.error e
    | Except.ok id =>
      match getKey d.url "url" with
      | Except.error e => Except.error e
      | Except.ok url =>
        Except.ok
          { altText := "📋 " ++ title
            heroUrl := image_url_of d
            titleText := title
            previewText := content_preview_of d
            bodyButtons :=
              [⟨"primary", FlexAction.uri ("https://your-liff-app.com/edit/" ++ id) "✏️ 編輯卡片"⟩]
            footerButtons :=
              [⟨"secondary", FlexAction.uri url "📖 閱讀原文"⟩,
               ⟨"secondary", FlexAction.postback ("save|" ++ id) "💾 保存書籤"⟩] }

/-! ## `CrawlerService.generate_summary` (services/crawler_service.py) -/

/-- `generate_summary`: `return content[:max_length] + "..." if
len(content) > max_length else content` — the advertised AI summary is in
fact a deterministic truncation of the input, and it never fails. -/
def generate_summary (content : String) (max_length : Nat := 200) : String :=
  if content.length > max_length then pyTake content max_length ++ "..." else content

/-! ## The `POST /api/bookmarks` endpoint `create_bookmark` (main.py) -/

/-- The `WebPageData` fields that `create_bookmark` copies into
`bookmark_data` (title, description, content_markdown are required `str`
in the pydantic schema; `main_image` is `Optional`). -/
structure WebPageData where
  title : String
  description : String
  content_markdown : String
  main_image : Option String

/-- Outcome of `crawler_service.extract_page_data(url)`: the dict with
`"success": True` and the extracted data, or `"success": False` and an
error message. -/
inductive CrawlResult where
  | success (data : WebPageData)
  | failure (error : String)

/-- One row of the Supabase `bookmarks` table, with the columns the
endpoint writes.  `id` models `gen_random_uuid()`: a fresh identity
assigned by the store at insert time. -/
structure BookmarkRow where
  id : Nat
  user_id : String
  url : String
  title : String
  description : String
  content_markdown : String
  image_url : Option String
deriving DecidableEq, Repr

/-- The `bookmarks` table: its rows plus the next fresh identity.  The
schema declares no uniqueness constraint on `(user_id, url)`. -/
structure BookmarksTable where
  rows : List BookmarkRow
  nextId : Nat
deriving DecidableEq, Repr

/-- `fastapi.HTTPException` as raised by the endpoint. -/
structure HTTPError where
  status_code : Nat
  detail : String
deriving DecidableEq, Repr

/-- `supabase.table("bookmarks").insert(bookmark_data).execute()`: a plain
insert — the new row is appended with a fresh identity, regardless of any
existing row with the same `(user_id, url)`. -/
def insertBookmark (tbl : BookmarksTable) (user_id url title description
    content_markdown : String) (image_url : Option String) :
    BookmarksTable × BookmarkRow :=
  let row : BookmarkRow :=
    ⟨tbl.nextId, user_id, url, title, description, content_markdown, image_url⟩
  (⟨tbl.rows ++ [row], tbl.nextId + 1⟩, row)

/-- `POST /api/bookmarks` (`create_bookmark` in main.py), parameterized by
the crawler's outcome.  On `"success": False` it raises
`HTTPException(400, "無法處理此網址")` (the surrounding `except Exception`
clause re-wraps any raised exception as a 500 with the same information;
we model the raise site) and persists nothing; on success it inserts a new
row built from the page data.  It never composes a degraded card: a fetch
failure is terminal for the request. -/
def create_bookmark (crawl_result : CrawlResult) (url user_id : String)
    (tbl : BookmarksTable) : BookmarksTable × Except HTTPError BookmarkRow :=
  match crawl_result with
  | CrawlResult.failure _ => (tbl, Except.error ⟨400, "無法處理此網址"⟩)
  | CrawlResult.success page_data =>
    let (tbl2, row) := insertBookmark tbl user_id url page_data.title
      page_data.description page_data.content_markdown page_data.main_image
    (tbl2, Except.ok row)

end BriefCard

namespace InsightHub

/-! ## `handleSubscription` (insight_hub/app.js) -/

/-- The form data read by `handleSubscription`: `formData.get('email')`
and `formData.get('frequency')` (the empty string also models a missing
field — both are falsy under `!email`), and `formData.getAll('topics')`. -/
structure SubscriptionForm where
  email : String
  frequency : String
  topics : List String
deriving DecidableEq, Repr

/-- The object assigned to `currentUser` on a valid submission. -/
structure NewsletterUser where
  email : String
  frequency : String
  topics : List String
  subscriptionDate : String
  status : String
deriving DecidableEq, Repr

/-- The JSON body POSTed to the n8n webhook. -/
structure WebhookPost where
  email : String
  topics : List String
  frequency : String
  subscriptionDate : String
  source : String
deriving DecidableEq, Repr

/-- The page state `handleSubscription` touches: the module-level
`currentUser`, the simulated persistence slot `window.newsletterUser`,
the list of webhook POSTs issued, how many success toasts were shown, how
many times the dashboard was re-rendered, and the alerts raised. -/
structure PageState where
  currentUser : Option NewsletterUser
  savedUser : Option NewsletterUser
  webhookPosts : List WebhookPost
  successToasts : Nat
  dashboardRenders : Nat
  alerts : List String
deriving DecidableEq, Repr

/-- `handleSubscription`, with the two date strings it computes passed in
(`todayDate` is `new Date().toISOString().split('T')[0]`, `nowIso` is
`new Date().toISOString()`).  On `!email || selectedTopics.length === 0`
it alerts and returns before any other effect; otherwise it sets
`currentUser`, saves it, POSTs the webhook body, shows the success toast
and re-renders the dashboard. -/
def handleSubscription (todayDate nowIso : String) (form : SubscriptionForm)
    (st : PageState) : PageState :=
  if form.email == "" || form.topics.isEmpty then
    { st with alerts := st.alerts ++ ["請填寫所有必填欄位"] }
  else
    let user : NewsletterUser :=
      ⟨form.email, form.frequency, form.topics, todayDate, "active"⟩
    { st with
        currentUser := some user
        savedUser := some user
        webhookPosts := st.webhookPosts ++
          [⟨form.email, form.topics, form.frequency, nowIso, "insight_hub_web"⟩]
        successToasts := st.successToasts + 1
        dashboardRenders := st.dashboardRenders + 1 }

end InsightHub

/-! ## Concrete inputs used by the counterexamples and witnesses -/

namespace BriefCard

/-- A `bookmark_data` dict with no keys at all. -/
def allAbsentInput : BookmarkData := ⟨none, none, none, none, none, none, none⟩

/-- A `bookmark_data` dict with only the keys the card reads by subscript
(`id`, `url`, `title`); every optional field is absent. -/
def onlyRequiredInput : BookmarkData :=
  ⟨some "1", some "https://example.com/a", some "Example", none, none, none, none⟩

/-- The card `create_bookmark_card` builds from `onlyRequiredInput`. -/
def onlyRequiredCard : FlexCard :=
  { altText := "📋 Example"
    heroUrl := "https://your-domain.com/icon.png"
    titleText := "Example"
    previewText := ""
    bodyButtons :=
      [⟨"primary", FlexAction.uri "https://your-liff-app.com/edit/1" "✏️ 編輯卡片"⟩]
    footerButtons :=
      [⟨"secondary", FlexAction.uri "https://example.com/a" "📖 閱讀原文"⟩,
       ⟨"secondary", FlexAction.postback "save|1" "💾 保存書籤"⟩] }

/-- A dict carrying both a `content_markdown` and a `description` value. -/
def bothTextsInput : BookmarkData :=
  ⟨some "42", some "https://example.com/a", some "T", some "DESC",
   some "MARKDOWN BODY", none, none⟩

/-- A dict whose `content_markdown` is 101 characters long. -/
def longContentInput : BookmarkData :=
  ⟨some "1", some "https://example.com/a", some "T", none,
   some (String.mk (List.replicate 101 'a')), none, none⟩

/-- A dict for a bookmark of an original article URL, with id 42. -/
def originalUrlInput : BookmarkData :=
  ⟨some "42", some "https://original.example/article", some "T", none, none, none, none⟩

/-- The empty `bookmarks` table. -/
def emptyTable : BookmarksTable := ⟨[], 0⟩

/-- Page data for a successfully crawled page. -/
def examplePage : WebPageData :=
  ⟨"Example Title", "Example description", "Example content", none⟩

/-- The table after one save of `https://example.com/a` by `user-1`. -/
def tableAfterFirstSave : BookmarksTable :=
  (create_bookmark (CrawlResult.success examplePage) "https://example.com/a" "user-1"
    emptyTable).1

end BriefCard

namespace InsightHub

/-- A fresh page: no subscriber yet, nothing saved, posted, or shown. -/
def freshState : PageState := ⟨none, none, [], 0, 0, []⟩

end InsightHub

/-! ## Helper lemmas -/

namespace BriefCard

/-- `re.search` succeeds exactly when the pattern matches at some split of
the text. -/
theorem searchHttp_eq_true_iff (l : List Char) :
    searchHttp l = true ↔
      ∃ pre post, l = pre ++ post ∧ matchesHttpAt post = true := by
  induction l with
  | nil =>
    simp only [searchHttp, Bool.false_eq_true, false_iff]
    rintro ⟨pre, post, hl, hm⟩
    have hpost : post = [] := by cases pre <;> simp_all
    subst hpost
    simp [matchesHttpAt] at hm
  | cons c rest ih =>
    simp only [searchHttp, Bool.or_eq_true, ih]
    constructor
    · rintro (h | ⟨pre, post, hrest, hm⟩)
      · exact ⟨[], c :: rest, rfl, h⟩
      · exact ⟨c :: pre, post, by simp [hrest], hm⟩
    · rintro ⟨pre, post, hl, hm⟩
      cases pre with
      | nil =>
        left
        simp only [List.nil_append] at hl
        rwa [hl]
      | cons p ps =>
        right
        simp only [List.cons_append, List.cons.injEq] at hl
        exact ⟨ps, post, hl.2, hm⟩

/-- Inversion for a successful card composition: the three required keys
were present and the card is exactly the dict literal of the source. -/
theorem create_bookmark_card_ok_shape (d : BookmarkData) (c : FlexCard)
    (h : create_bookmark_card d = Except.ok c) :
    ∃ t i u, d.title = some t ∧ d.id = some i ∧ d.url = some u ∧
      c = { altText := "📋 " ++ t
            heroUrl := image_url_of d
            titleText := t
            previewText := content_preview_of d
            bodyButtons :=
              [⟨"primary", FlexAction.uri ("https://your-liff-app.com/edit/" ++ i) "✏️ 編輯卡片"⟩]
            footerButtons :=
              [⟨"secondary", FlexAction.uri u "📖 閱讀原文"⟩,
               ⟨"secondary", FlexAction.postback ("save|" ++ i) "💾 保存書籤"⟩] } := by
  cases ht : d.title with
  | none => simp [create_bookmark_card, getKey, ht] at h
  | some t =>
    cases hi : d.id with
    | none => simp [create_bookmark_card, getKey, ht, hi] at h
    | some i =>
      cases hu : d.url with
      | none => simp [create_bookmark_card, getKey, ht, hi, hu] at h
      | some u =>
        refine ⟨t, i, u, rfl, rfl, rfl, ?_⟩
        simp only [create_bookmark_card, getKey, ht, hi, hu, Except.ok.injEq] at h
        exact h.symm

/-- The composed preview never exceeds 103 codepoints: at most a
100-codepoint slice plus the three-character ellipsis. -/
theorem content_preview_of_length (d : BookmarkData) :
    (content_preview_of d).length ≤ 103 := by
  unfold content_preview_of
  split
  · rw [String.length_append]
    have h1 : (pyTake (main_content_of d) 100).length
        = min 100 (main_content_of d).data.length := List.length_take _ _
    have h2 : (min 100 (main_content_of d).data.length) ≤ 100 :=
      Nat.min_le_left _ _
    have h3 : ("..." : String).length = 3 := rfl
    omega
  · rename_i hle
    omega

/-- `pyOr` with a non-empty fallback yields a non-empty string. -/
theorem pyOr_ne_empty (a : Option String) (b : String) (hb : b ≠ "") :
    pyOr a b ≠ "" := by
  unfold pyOr
  rcases a with _ | s
  · exact hb
  · by_cases hs : s = ""
    · simp [hs, hb]
    · simp [hs]

end BriefCard

/-! ## Claim theorems -/

namespace BriefCard

/-- Claim C3, counterexample.  The claim ascribes to URL extraction an
ordered, deduplicated sequence capped at 3.  The only URL-extraction
operation in the source, `LineService.is_url`, returns a single boolean:
on two texts whose claimed extraction results differ (one URL versus
two), `is_url` returns the same value, so it cannot compute the claimed
sequence. -/
theorem is_url_not_an_extractor :
    spec_extractUrls "https://a.com" ≠
      spec_extractUrls "https://a.com https://b.com"
    ∧ is_url "https://a.com" = is_url "https://a.com https://b.com"
    ∧ is_url "https://a.com" = true
    ∧ spec_extractUrls "https://a.com https://b.com"
        = ["https://a.com", "https://b.com"] := by
  refine ⟨by decide, rfl, rfl, by decide⟩

/-- Claim C3, amended.  `is_url` is a boolean detector, not an extractor:
it returns `true` exactly when the message text contains `http://` or
`https://` followed by a non-whitespace character at some position (so
text with zero URLs yields `false`); no sequence is returned, and no cap
or deduplication exists in the source. -/
theorem is_url_boolean_detector (text : String) :
    is_url text = true ↔
      ∃ pre post, text.data = pre ++ post ∧ matchesHttpAt post = true :=
  searchHttp_eq_true_iff text.data

/-- Claim C9, counterexample.  On a 201-character input with budget 200,
`generate_summary` returns precisely the deterministic truncation of its
input (first 200 characters plus an ellipsis) — the summarizer itself
performs the deterministic truncation the claim says it never performs,
and it cannot fail (it returns a plain string, with no failure channel). -/
theorem generate_summary_is_deterministic_truncation :
    generate_summary (String.mk (List.replicate 201 'x')) 200
      = pyTake (String.mk (List.replicate 201 'x')) 200 ++ "..."
    ∧ generate_summary (String.mk (List.replicate 201 'x')) 200
      ≠ String.mk (List.replicate 201 'x') := by
  refine ⟨rfl, by decide⟩

/-- Claim C9, amended.  `generate_summary` never fails and is itself a
deterministic truncation: the input is returned unchanged when it fits
the budget, and otherwise cut to `max_length` codepoints with `"..."`
appended, so the output never exceeds `max_length + 3` codepoints. -/
theorem generate_summary_truncates (content : String) (max_length : Nat) :
    (generate_summary content max_length).length ≤ max_length + 3
    ∧ (content.length ≤ max_length → generate_summary content max_length = content)
    ∧ (max_length < content.length →
        generate_summary content max_length = pyTake content max_length ++ "...") := by
  refine ⟨?_, ?_, ?_⟩
  · unfold generate_summary
    split
    · rw [String.length_append]
      have h1 : (pyTake content max_length).length
          = min max_length content.data.length := List.length_take _ _
      have h2 : min max_length content.data.length ≤ max_length :=
        Nat.min_le_left _ _
      have h3 : ("..." : String).length = 3 := rfl
      omega
    · rename_i hle
      omega
  · intro hle
    unfold generate_summary
    split
    · rename_i hgt; omega
    · rfl
  · intro hlt
    unfold generate_summary
    split
    · rfl
    · rename_i hno; omega

/-- Claim C9, witness for the amended theorem at a concrete input. -/
theorem generate_summary_truncates_witness :
    generate_summary "hello" 200 = "hello" :=
  (generate_summary_truncates "hello" 200).2.1 (by decide)

end BriefCard

namespace BriefCard

/-- Claim C4, counterexample.  With the three subscript keys present and
every optional field absent, the composer returns a card whose
`previewText` is the empty string — not non-empty as claimed; and on a
dict with no keys at all (the spec allows every PageData field but the
URL to be absent) the composer raises `KeyError('title')` rather than
never failing. -/
theorem create_bookmark_card_empty_preview :
    (create_bookmark_card onlyRequiredInput).map FlexCard.previewText = Except.ok ""
    ∧ create_bookmark_card allAbsentInput = Except.error "title" :=
  ⟨rfl, rfl⟩

/-- Claim C4, amended.  When the keys the composer reads by subscript
(`title`, `url`, `id`) are present and every optional field is absent,
`create_bookmark_card` does not fail and its `imageUrl` is the non-empty
static default; but its `previewText` is the empty string and its title
is whatever title value was supplied (empty iff the supplied title is).
When the `title` key itself is absent the composer fails with
`KeyError`. -/
theorem create_bookmark_card_all_optional_absent (t u i : String) :
    create_bookmark_card ⟨some i, some u, some t, none, none, none, none⟩
      = Except.ok
          { altText := "📋 " ++ t
            heroUrl := "https://your-domain.com/icon.png"
            titleText := t
            previewText := ""
            bodyButtons :=
              [⟨"primary", FlexAction.uri ("https://your-liff-app.com/edit/" ++ i) "✏️ 編輯卡片"⟩]
            footerButtons :=
              [⟨"secondary", FlexAction.uri u "📖 閱讀原文"⟩,
               ⟨"secondary", FlexAction.postback ("save|" ++ i) "💾 保存書籤"⟩] }
    ∧ ("https://your-domain.com/icon.png" : String) ≠ "" :=
  ⟨rfl, by decide⟩

/-- Claim C5, counterexample.  A 101-character `content_markdown` yields a
103-character `previewText` (100 characters plus the appended `"..."`),
exceeding the claimed 100-character bound. -/
theorem content_preview_exceeds_100 :
    (create_bookmark_card longContentInput).map (fun c => c.previewText.length)
      = Except.ok 103
    ∧ 103 > 100 := by
  refine ⟨rfl, by decide⟩

/-- Claim C5, amended.  The composed `previewText` is at most 103
codepoints: either the selected text itself, or its first 100 codepoints
with `"..."` appended.  The slice is taken on the codepoint list
(`pyTake`), so it never splits a character. -/
theorem content_preview_length_bound (d : BookmarkData) (c : FlexCard)
    (h : create_bookmark_card d = Except.ok c) :
    c.previewText.length ≤ 103
    ∧ (c.previewText = main_content_of d
        ∨ c.previewText = pyTake (main_content_of d) 100 ++ "...") := by
  obtain ⟨t, i, u, ht, hi, hu, rfl⟩ := create_bookmark_card_ok_shape d c h
  refine ⟨content_preview_of_length d, ?_⟩
  show content_preview_of d = _ ∨ content_preview_of d = _
  unfold content_preview_of
  split
  · right; rfl
  · left; rfl

/-- Claim C5, witness for the amended theorem at a concrete input. -/
theorem content_preview_length_bound_witness :
    onlyRequiredCard.previewText.length ≤ 103 :=
  (content_preview_length_bound onlyRequiredInput onlyRequiredCard rfl).1

/-- Claim C6, counterexample.  With both `content_markdown` and
`description` present, the code picks `content_markdown`
(`"MARKDOWN BODY"`), while the claimed chain — no abstract available, so
`description` — would pick `"DESC"`. -/
theorem preview_prefers_content_markdown :
    (create_bookmark_card bothTextsInput).map FlexCard.previewText
      = Except.ok "MARKDOWN BODY"
    ∧ bothTextsInput.description = some "DESC"
    ∧ ("MARKDOWN BODY" : String) ≠ "DESC" := by
  refine ⟨rfl, rfl, by decide⟩

/-- Claim C6, amended.  The preview fallback chain is: the
`content_markdown` value when that key is present, else the `description`
value when present, else the empty string — no summary/abstract input
participates and there is no fixed placeholder — and whichever value is
chosen (not only content text) is truncated to 100 codepoints with
`"..."` appended when longer than 100. -/
theorem preview_fallback_chain (d : BookmarkData) (c : FlexCard)
    (h : create_bookmark_card d = Except.ok c) :
    (∀ s, d.content_markdown = some s →
        c.previewText = if s.length > 100 then pyTake s 100 ++ "..." else s)
    ∧ (d.content_markdown = none → ∀ s, d.description = some s →
        c.previewText = if s.length > 100 then pyTake s 100 ++ "..." else s)
    ∧ (d.content_markdown = none → d.description = none → c.previewText = "") := by
  obtain ⟨t, i, u, ht, hi, hu, rfl⟩ := create_bookmark_card_ok_shape d c h
  refine ⟨?_, ?_, ?_⟩
  · intro s hs
    show content_preview_of d = _
    simp [content_preview_of, main_content_of, hs]
  · intro hcm s hs
    show content_preview_of d = _
    simp [content_preview_of, main_content_of, hcm, hs]
  · intro hcm hds
    show content_preview_of d = _
    simp [content_preview_of, main_content_of, hcm, hds]

/-- Claim C6, witness for the amended theorem at a concrete input. -/
theorem preview_fallback_chain_witness :
    onlyRequiredCard.previewText = "" :=
  (preview_fallback_chain onlyRequiredInput onlyRequiredCard rfl).2.2 rfl rfl

/-- Claim C7: the hero image URL is chosen by the ordered chain
`image_url` (hero) → `preview_image` → static default icon, each step
skipped when absent or empty, so the result is never empty. -/
theorem image_url_fallback_chain (d : BookmarkData) (c : FlexCard)
    (h : create_bookmark_card d = Except.ok c) :
    c.heroUrl = image_url_of d
    ∧ c.heroUrl ≠ ""
    ∧ (∀ s, d.image_url = some s → s ≠ "" → c.heroUrl = s)
    ∧ ((d.image_url = none ∨ d.image_url = some "") →
        ∀ s, d.preview_image = some s → s ≠ "" → c.heroUrl = s)
    ∧ ((d.image_url = none ∨ d.image_url = some "") →
        (d.preview_image = none ∨ d.preview_image = some "") →
        c.heroUrl = "https://your-domain.com/icon.png") := by
  obtain ⟨t, i, u, ht, hi, hu, rfl⟩ := create_bookmark_card_ok_shape d c h
  refine ⟨rfl, ?_, ?_, ?_, ?_⟩
  · show image_url_of d ≠ ""
    exact pyOr_ne_empty _ _ (pyOr_ne_empty _ _ (by decide))
  · intro s hs hne
    show image_url_of d = s
    simp [image_url_of, pyOr, hs, hne]
  · intro himg s hs hne
    show image_url_of d = s
    rcases himg with himg | himg <;> simp [image_url_of, pyOr, himg, hs, hne]
  · intro himg hprev
    show image_url_of d = _
    rcases himg with himg | himg <;> rcases hprev with hprev | hprev <;>
      simp [image_url_of, pyOr, himg, hprev]

/-- Claim C7, witness at a concrete input with both images absent. -/
theorem image_url_fallback_chain_witness :
    onlyRequiredCard.heroUrl ≠ "" :=
  (image_url_fallback_chain onlyRequiredInput onlyRequiredCard rfl).2.1

/-- Claim C8, counterexample.  The card's single `primary`-style button
does not open the original URL: it opens the edit surface
(`https://your-liff-app.com/edit/<id>`), while the original URL is only
reachable through a `secondary` footer button. -/
theorem primary_action_is_edit_not_original :
    (create_bookmark_card originalUrlInput).map FlexCard.bodyButtons
      = Except.ok
          [⟨"primary", FlexAction.uri "https://your-liff-app.com/edit/42" "✏️ 編輯卡片"⟩]
    ∧ originalUrlInput.url = some "https://original.example/article"
    ∧ ("https://your-liff-app.com/edit/42" : String)
        ≠ "https://original.example/article" := by
  refine ⟨rfl, rfl, by decide⟩

/-- Claim C8, amended.  Every composed card has a fixed action set:
exactly one `primary` button, whose URI opens the edit surface for the
bookmark (not the original URL), and exactly two `secondary` buttons —
one opening the original URL and one posting back a save command.  Only
the interpolated `id` and `url` values vary with the data. -/
theorem card_action_set (d : BookmarkData) (c : FlexCard)
    (h : create_bookmark_card d = Except.ok c) :
    ∃ i u, d.id = some i ∧ d.url = some u ∧
      c.bodyButtons
        = [⟨"primary", FlexAction.uri ("https://your-liff-app.com/edit/" ++ i) "✏️ 編輯卡片"⟩]
      ∧ c.footerButtons
        = [⟨"secondary", FlexAction.uri u "📖 閱讀原文"⟩,
           ⟨"secondary", FlexAction.postback ("save|" ++ i) "💾 保存書籤"⟩]
      ∧ ((c.bodyButtons ++ c.footerButtons).filter
            (fun b => b.style == "primary")).length = 1
      ∧ ((c.bodyButtons ++ c.footerButtons).filter
            (fun b => b.style == "secondary")).length = 2 := by
  obtain ⟨t, i, u, ht, hi, hu, rfl⟩ := create_bookmark_card_ok_shape d c h
  exact ⟨i, u, hi, hu, rfl, rfl, rfl, rfl⟩

/-- Claim C8, witness at a concrete input. -/
theorem card_action_set_witness :
    ((onlyRequiredCard.bodyButtons ++ onlyRequiredCard.footerButtons).filter
        (fun b => b.style == "primary")).length = 1 := by
  obtain ⟨i, u, _, _, _, _, h1, _⟩ :=
    card_action_set onlyRequiredInput onlyRequiredCard rfl
  exact h1

end BriefCard

namespace BriefCard

/-- Claim C1, counterexample.  Saving `https://example.com/a` twice for
`user-1` leaves two rows in the `bookmarks` table, with distinct fresh
identities, both for the same (owner, url) pair — the endpoint inserts
unconditionally (the schema has no uniqueness over `(user_id, url)` and
the code calls `insert`, not an upsert), so the second save does not
update the first row. -/
theorem create_bookmark_duplicate_save_two_rows :
    ((create_bookmark (CrawlResult.success examplePage) "https://example.com/a"
        "user-1" tableAfterFirstSave).1.rows.length = 2)
    ∧ ((create_bookmark (CrawlResult.success examplePage) "https://example.com/a"
        "user-1" tableAfterFirstSave).1.rows.map BookmarkRow.id = [0, 1])
    ∧ ((create_bookmark (CrawlResult.success examplePage) "https://example.com/a"
        "user-1" tableAfterFirstSave).1.rows.map
          (fun r => (r.user_id, r.url))
        = [("user-1", "https://example.com/a"),
           ("user-1", "https://example.com/a")]) := by
  refine ⟨rfl, rfl, rfl⟩

/-- Claim C1, amended.  Every successful save appends a brand-new row
with a fresh identity, regardless of any existing row for the same
(owner, url): a second save of the same URL by the same owner yields a
second row rather than updating the first. -/
theorem create_bookmark_inserts_fresh_row (pd : WebPageData)
    (url user_id : String) (tbl : BookmarksTable)
    (h : ∀ r ∈ tbl.rows, r.id < tbl.nextId) :
    (create_bookmark (CrawlResult.success pd) url user_id tbl).1.rows
      = tbl.rows ++ [⟨tbl.nextId, user_id, url, pd.title, pd.description,
          pd.content_markdown, pd.main_image⟩]
    ∧ ∀ r ∈ tbl.rows, r.id ≠ tbl.nextId := by
  exact ⟨rfl, fun r hr => Nat.ne_of_lt (h r hr)⟩

/-- Claim C1, witness for the amended theorem: the second save of the
same URL by the same owner appends a new row. -/
theorem create_bookmark_inserts_fresh_row_witness :
    (create_bookmark (CrawlResult.success examplePage) "https://example.com/a"
        "user-1" tableAfterFirstSave).1.rows
      = tableAfterFirstSave.rows ++ [⟨tableAfterFirstSave.nextId, "user-1",
          "https://example.com/a", examplePage.title, examplePage.description,
          examplePage.content_markdown, examplePage.main_image⟩] :=
  (create_bookmark_inserts_fresh_row examplePage "https://example.com/a"
      "user-1" tableAfterFirstSave (by decide)).1

/-- Claim C2, counterexample.  When the fetch fails, the endpoint
terminates the request with an error response (`HTTPException`, detail
"無法處理此網址") and persists nothing: no minimal card, no degraded
Bookmark — the fetch failure is surfaced to the caller as a request
failure. -/
theorem create_bookmark_fetch_failure_error_reply :
    create_bookmark (CrawlResult.failure "Connection timed out")
        "https://slow.example/x" "user-1" emptyTable
      = (emptyTable, Except.error ⟨400, "無法處理此網址"⟩) :=
  rfl

/-- Claim C2, amended.  A fetch failure is terminal for the request: for
every failed crawl outcome the endpoint leaves the `bookmarks` table
untouched and surfaces an error response to the caller (status 400 at
the raise site, detail "無法處理此網址"); it never composes a minimal
card or persists a degraded Bookmark. -/
theorem create_bookmark_fetch_failure_terminal (msg url user_id : String)
    (tbl : BookmarksTable) :
    (create_bookmark (CrawlResult.failure msg) url user_id tbl).1 = tbl
    ∧ ∃ e, (create_bookmark (CrawlResult.failure msg) url user_id tbl).2
          = Except.error e
        ∧ e.status_code = 400 ∧ e.detail = "無法處理此網址" :=
  ⟨rfl, ⟨400, "無法處理此網址"⟩, rfl, rfl, rfl⟩

end BriefCard

namespace InsightHub

/-- Claim C10: when the email field is empty (or absent — both are falsy
under `!email`) or no topics are selected, `handleSubscription` returns
before any effect other than the validation alert: `currentUser` keeps
its prior value, nothing is saved to the persistence slot, no webhook
POST is issued, and no success toast or dashboard re-render occurs. -/
theorem handleSubscription_invalid_noop (todayDate nowIso : String)
    (form : SubscriptionForm) (st : PageState)
    (h : form.email = "" ∨ form.topics = []) :
    (handleSubscription todayDate nowIso form st).currentUser = st.currentUser
    ∧ (handleSubscription todayDate nowIso form st).savedUser = st.savedUser
    ∧ (handleSubscription todayDate nowIso form st).webhookPosts = st.webhookPosts
    ∧ (handleSubscription todayDate nowIso form st).successToasts = st.successToasts
    ∧ (handleSubscription todayDate nowIso form st).dashboardRenders
        = st.dashboardRenders := by
  rcases h with h | h <;> simp [handleSubscription, h]

/-- Claim C10, witness: a submission with an empty email and a selected
topic leaves the current user unchanged. -/
theorem handleSubscription_invalid_noop_witness :
    (handleSubscription "2026-10-12" "2026-10-12T00:00:00.000Z"
        ⟨"", "daily", ["AI"]⟩ freshState).currentUser = freshState.currentUser :=
  (handleSubscription_invalid_noop "2026-10-12" "2026-10-12T00:00:00.000Z"
      ⟨"", "daily", ["AI"]⟩ freshState (Or.inl rfl)).1

end InsightHub
